import Mathlib

/-!
Verification of the two classroom database scripts `exercises.py` and
`homework.py` (raw sqlite3, no ORM).  The sqlite database state is embedded
shallowly: each table is a list of row structures together with the
AUTOINCREMENT counter of its INTEGER PRIMARY KEY; constraint violations
(UNIQUE, CHECK, FOREIGN KEY with PRAGMA foreign_keys = ON) surface as
`SqlError.integrityError`, matching `sqlite3.IntegrityError`.
-/

namespace DbScripts

/-- Errors a statement can raise.  `integrityError` models
`sqlite3.IntegrityError` (UNIQUE, CHECK and FOREIGN KEY violations);
`pythonError` models any other Python-level exception. -/
inductive SqlError where
  | integrityError (msg : String)
  | pythonError (msg : String)
deriving DecidableEq, Repr

/-! ## exercises.py: data model

Schema (`create_schema`): `students(id PK AUTOINCREMENT, name NOT NULL,
email NOT NULL UNIQUE)`, `courses(id PK AUTOINCREMENT, code NOT NULL UNIQUE,
title NOT NULL)`, `enrollments(id PK AUTOINCREMENT, student_id FK→students
ON DELETE CASCADE, course_id FK→courses ON DELETE CASCADE, enrolled_at TEXT
DEFAULT datetime(now), UNIQUE(student_id, course_id))`. -/

structure StudentRow where
  id : Nat
  name : String
  email : String
deriving DecidableEq, Repr

structure CourseRow where
  id : Nat
  code : String
  title : String
deriving DecidableEq, Repr

structure EnrollmentRow where
  id : Nat
  student_id : Nat
  course_id : Nat
  enrolled_at : String
deriving DecidableEq, Repr

/-- The exercises database: the three tables in rowid order plus the next
AUTOINCREMENT value of each, and the connection clock used for the
`enrolled_at` DEFAULT. -/
structure ExDB where
  students : List StudentRow
  courses : List CourseRow
  enrollments : List EnrollmentRow
  nextStudentId : Nat
  nextCourseId : Nat
  nextEnrollmentId : Nat
  now : String
deriving DecidableEq, Repr

/-- The state right after `create_schema` on a fresh file: all tables empty,
AUTOINCREMENT counters at 1. -/
def freshExDB (now : String) : ExDB :=
  { students := [], courses := [], enrollments := []
    nextStudentId := 1, nextCourseId := 1, nextEnrollmentId := 1, now := now }

/-- `add_student`: INSERT INTO students (name, email) VALUES (?, ?);
returns `cursor.lastrowid`.  The UNIQUE constraint on email aborts the
insert with an IntegrityError. -/
def add_student (db : ExDB) (name email : String) : Except SqlError (ExDB × Nat) :=
  if db.students.any (fun s => s.email == email) then
    .error (.integrityError "UNIQUE constraint failed: students.email")
  else
    .ok ({ db with
            students := db.students ++ [{ id := db.nextStudentId, name := name, email := email }]
            nextStudentId := db.nextStudentId + 1 },
         db.nextStudentId)

/-- `find_student_by_email`: SELECT id, name, email FROM students WHERE
email = ?; followed by `fetchone()`: the first matching row in table-scan
(rowid) order, or None. -/
def find_student_by_email (db : ExDB) (email : String) : Option StudentRow :=
  (db.students.filter (fun s => s.email == email)).head?

/-- `rename_student`: UPDATE students SET name = ? WHERE id = ?; returns
`cursor.rowcount`, the number of rows the WHERE clause matched. -/
def rename_student (db : ExDB) (student_id : Nat) (new_name : String) : ExDB × Nat :=
  ({ db with
      students := db.students.map (fun s =>
        if s.id == student_id then { s with name := new_name } else s) },
   (db.students.filter (fun s => s.id == student_id)).length)

/-- `delete_student`: DELETE FROM students WHERE id = ?; returns
`cursor.rowcount` for the students table only.  The connection runs with
PRAGMA foreign_keys = ON and `enrollments` declares ON DELETE CASCADE on
`student_id`, so every enrollment of the deleted student is removed too. -/
def delete_student (db : ExDB) (student_id : Nat) : ExDB × Nat :=
  ({ db with
      students := db.students.filter (fun s => s.id != student_id)
      enrollments := db.enrollments.filter (fun e => e.student_id != student_id) },
   (db.students.filter (fun s => s.id == student_id)).length)

/-- `enroll_student`: INSERT INTO enrollments (student_id, course_id)
VALUES (?, ?);.  With PRAGMA foreign_keys = ON the insert fails when the
referenced student or course does not exist, and the
UNIQUE(student_id, course_id) constraint fails on a duplicate pair; both
raise `sqlite3.IntegrityError`.  `enrolled_at` takes its DEFAULT from the
clock. -/
def enroll_student (db : ExDB) (student_id course_id : Nat) : Except SqlError ExDB :=
  if db.students.all (fun s => s.id != student_id) then
    .error (.integrityError "FOREIGN KEY constraint failed")
  else if db.courses.all (fun c => c.id != course_id) then
    .error (.integrityError "FOREIGN KEY constraint failed")
  else if db.enrollments.any (fun e => e.student_id == student_id && e.course_id == course_id) then
    .error (.integrityError "UNIQUE constraint failed: enrollments.student_id, enrollments.course_id")
  else
    .ok { db with
            enrollments := db.enrollments ++
              [{ id := db.nextEnrollmentId, student_id := student_id,
                 course_id := course_id, enrolled_at := db.now }]
            nextEnrollmentId := db.nextEnrollmentId + 1 }

/-- One row of the `executemany` in `seed_courses`: INSERT INTO courses
(code, title) VALUES (?, ?); with the UNIQUE constraint on code. -/
def insert_course (db : ExDB) (code title : String) : Except SqlError ExDB :=
  if db.courses.any (fun c => c.code == code) then
    .error (.integrityError "UNIQUE constraint failed: courses.code")
  else
    .ok { db with
            courses := db.courses ++ [{ id := db.nextCourseId, code := code, title := title }]
            nextCourseId := db.nextCourseId + 1 }

/-- `seed_courses`: executemany of the course insert over the three fixed
rows, in order, stopping at the first failing row. -/
def seed_courses (db : ExDB) : Except SqlError ExDB :=
  match insert_course db "CS101" "Intro to Programming" with
  | .error e => .error e
  | .ok db1 =>
    match insert_course db1 "CS205" "Web Development" with
    | .error e => .error e
    | .ok db2 => insert_course db2 "CS310" "Data Structures"

/-- One result row of `list_enrollments`. -/
structure EnrollmentReportRow where
  student_name : String
  course_code : String
  course_title : String
deriving DecidableEq, Repr

/-- The byte key under which SQLite compares a TEXT value (memcmp order on
the UTF-8 encoding; on the ASCII data of these scripts, the code-point
list). -/
def textKey (s : String) : List Nat :=
  s.data.map Char.toNat

/-- Strict lexicographic byte order on TEXT keys: the shorter list is a
proper prefix, or the first differing position decides. -/
def natListLtB : List Nat → List Nat → Bool
  | [], [] => false
  | [], _ :: _ => true
  | _ :: _, [] => false
  | a :: as, b :: bs => decide (a < b) || (a == b && natListLtB as bs)

/-- Non-strict byte order: not strictly greater. -/
def natListLeB (a b : List Nat) : Bool :=
  !(natListLtB b a)

/-- The ORDER BY student_name, course_code comparison of `list_enrollments`
(lexicographic on the two text keys, in SQLite text order). -/
def reportLE (a b : EnrollmentReportRow) : Prop :=
  (natListLtB (textKey a.student_name) (textKey b.student_name) ||
    (textKey a.student_name == textKey b.student_name &&
      natListLeB (textKey a.course_code) (textKey b.course_code))) = true

instance : DecidableRel reportLE := fun a b => by
  unfold reportLE
  infer_instance

/-- The FROM/JOIN/SELECT part of `list_enrollments`: for each enrollment,
each matching student and each matching course contribute one row with the
student name and the course code and title. -/
def joinEnrollments (db : ExDB) : List EnrollmentReportRow :=
  db.enrollments.flatMap fun e =>
    (db.students.filter (fun s => s.id == e.student_id)).flatMap fun s =>
      (db.courses.filter (fun c => c.id == e.course_id)).map fun c =>
        { student_name := s.name, course_code := c.code, course_title := c.title }

/-- `list_enrollments`: the join, sorted by student_name then course_code. -/
def list_enrollments (db : ExDB) : List EnrollmentReportRow :=
  (joinEnrollments db).insertionSort reportLE

/-- The row `list_enrollments` owes to one enrollment: name, code and title
looked up in the referenced student and course rows. -/
def joinedRow (db : ExDB) (e : EnrollmentRow) : EnrollmentReportRow :=
  match db.students.find? (fun s => s.id == e.student_id),
        db.courses.find? (fun c => c.id == e.course_id) with
  | some s, some c => { student_name := s.name, course_code := c.code, course_title := c.title }
  | _, _ => { student_name := "", course_code := "", course_title := "" }

/-- The try/except block of `main` (exercises.py, lines 191-199): BEGIN,
enroll the same (student, course) pair twice, COMMIT; on
`sqlite3.IntegrityError` print and ROLLBACK, which restores the state at
BEGIN.  Any other exception would propagate uncaught. -/
def duplicate_enroll_demo (db : ExDB) (student_id course_id : Nat) : Except SqlError ExDB :=
  match enroll_student db student_id course_id with
  | .error (.integrityError _) => .ok db
  | .error e => .error e
  | .ok db1 =>
    match enroll_student db1 student_id course_id with
    | .error (.integrityError _) => .ok db
    | .error e => .error e
    | .ok db2 => .ok db2

/-- Referential integrity of the exercises database: every enrollment
points at an existing student and an existing course. -/
def refIntegrity (db : ExDB) : Prop :=
  ∀ e ∈ db.enrollments,
    (∃ s ∈ db.students, s.id = e.student_id) ∧ (∃ c ∈ db.courses, c.id = e.course_id)

instance (db : ExDB) : Decidable (refIntegrity db) := by
  unfold refIntegrity
  infer_instance

/-! ## homework.py: data model

Schema (`create_schema`): `students(id PK AUTOINCREMENT, name NOT NULL,
email NOT NULL UNIQUE)`, `assignments(id PK AUTOINCREMENT, title NOT NULL,
max_points NOT NULL CHECK (max_points > 0))`, `grades(id PK AUTOINCREMENT,
student_id FK→students, assignment_id FK→assignments, score NOT NULL CHECK
(score >= 0), UNIQUE(student_id, assignment_id))`. -/

structure HwStudentRow where
  id : Nat
  name : String
  email : String
deriving DecidableEq, Repr

structure AssignmentRow where
  id : Nat
  title : String
  max_points : Int
deriving DecidableEq, Repr

structure GradeRow where
  id : Nat
  student_id : Nat
  assignment_id : Nat
  score : Int
deriving DecidableEq, Repr

/-- The homework gradebook database. -/
structure HwDB where
  students : List HwStudentRow
  assignments : List AssignmentRow
  grades : List GradeRow
  nextStudentId : Nat
  nextAssignmentId : Nat
  nextGradeId : Nat
deriving DecidableEq, Repr

/-- Fresh gradebook right after `create_schema`. -/
def freshHwDB : HwDB :=
  { students := [], assignments := [], grades := []
    nextStudentId := 1, nextAssignmentId := 1, nextGradeId := 1 }

/-- homework.py `add_student`: INSERT INTO students (name, email)
VALUES (?, ?), returning lastrowid; UNIQUE on email. -/
def hw_add_student (db : HwDB) (name email : String) : Except SqlError (HwDB × Nat) :=
  if db.students.any (fun s => s.email == email) then
    .error (.integrityError "UNIQUE constraint failed: students.email")
  else
    .ok ({ db with
            students := db.students ++ [{ id := db.nextStudentId, name := name, email := email }]
            nextStudentId := db.nextStudentId + 1 },
         db.nextStudentId)

/-- `add_assignment`: INSERT INTO assignments (title, max_points)
VALUES (?, ?); the CHECK (max_points > 0) aborts on a non-positive value. -/
def add_assignment (db : HwDB) (title : String) (max_points : Int) : Except SqlError (HwDB × Nat) :=
  if max_points ≤ 0 then
    .error (.integrityError "CHECK constraint failed: max_points > 0")
  else
    .ok ({ db with
            assignments := db.assignments ++
              [{ id := db.nextAssignmentId, title := title, max_points := max_points }]
            nextAssignmentId := db.nextAssignmentId + 1 },
         db.nextAssignmentId)

/-- `record_grade`: INSERT INTO grades (student_id, assignment_id, score)
VALUES (?, ?, ?); CHECK (score >= 0), both FOREIGN KEYs (PRAGMA
foreign_keys = ON) and UNIQUE(student_id, assignment_id). -/
def record_grade (db : HwDB) (student_id assignment_id : Nat) (score : Int) :
    Except SqlError (HwDB × Nat) :=
  if score < 0 then
    .error (.integrityError "CHECK constraint failed: score >= 0")
  else if db.students.all (fun s => s.id != student_id) then
    .error (.integrityError "FOREIGN KEY constraint failed")
  else if db.assignments.all (fun a => a.id != assignment_id) then
    .error (.integrityError "FOREIGN KEY constraint failed")
  else if db.grades.any (fun g => g.student_id == student_id && g.assignment_id == assignment_id) then
    .error (.integrityError "UNIQUE constraint failed: grades.student_id, grades.assignment_id")
  else
    .ok ({ db with
            grades := db.grades ++
              [{ id := db.nextGradeId, student_id := student_id,
                 assignment_id := assignment_id, score := score }]
            nextGradeId := db.nextGradeId + 1 },
         db.nextGradeId)

/-- ORDER BY name for `list_students` (SQLite text order). -/
def hwNameLE (a b : HwStudentRow) : Prop :=
  natListLeB (textKey a.name) (textKey b.name) = true

instance : DecidableRel hwNameLE := fun a b => by
  unfold hwNameLE
  infer_instance

/-- `list_students`: SELECT * FROM students ORDER BY name. -/
def list_students (db : HwDB) : List HwStudentRow :=
  db.students.insertionSort hwNameLE

/-- One row of `student_grade_report`, without the `percent` column: the SQL
also computes ROUND(1.0 * score / max_points * 100, 1) in IEEE-754 double
precision, which this embedding does not model (see also `leaderboard`). -/
structure GradeReportRow where
  assignment_title : String
  score : Int
  max_points : Int
deriving DecidableEq, Repr

/-- `student_grade_report`: grades of one student joined with assignments,
in table-scan order (no ORDER BY). -/
def student_grade_report (db : HwDB) (student_id : Nat) : List GradeReportRow :=
  (db.grades.filter (fun g => g.student_id == student_id)).flatMap fun g =>
    (db.assignments.filter (fun a => a.id == g.assignment_id)).map fun a =>
      { assignment_title := a.title, score := g.score, max_points := a.max_points }

/-! ## SQL statements executed by each exposed operation (for the
single-parameterized-statement claim).

Each operation of the two scripts is transcribed as the list of SQL
statements it hands to the engine, with the number of variable values bound
to each.  `create_schema` in exercises.py submits one `executescript` whose
script holds three CREATE TABLE statements; `create_schema` in homework.py
issues three separate `execute` calls; `seed_courses` issues one
`executemany` whose single statement is bound once per seeded row.  Every
statement text is a fixed string literal in the source: no statement is
built by string concatenation, and variables reach the engine only through
`?` placeholders. -/

structure SqlCall where
  sql : String
  nParams : Nat
deriving DecidableEq, Repr

structure DbOperation where
  script : String
  opName : String
  calls : List SqlCall
deriving DecidableEq, Repr

/-- Number of `?` placeholders in a statement text. -/
def countPlaceholders (s : String) : Nat :=
  (s.data.filter (fun c => c = Char.ofNat 63)).length

def exCreateSchemaOp : DbOperation :=
  { script := "exercises.py", opName := "create_schema"
    calls :=
      [ { sql := "CREATE TABLE students ( id INTEGER PRIMARY KEY AUTOINCREMENT, name TEXT NOT NULL, email TEXT NOT NULL UNIQUE );", nParams := 0 },
        { sql := "CREATE TABLE courses ( id INTEGER PRIMARY KEY AUTOINCREMENT, code TEXT NOT NULL UNIQUE, title TEXT NOT NULL );", nParams := 0 },
        { sql := "CREATE TABLE enrollments ( id INTEGER PRIMARY KEY AUTOINCREMENT, student_id INTEGER NOT NULL, course_id INTEGER NOT NULL, enrolled_at TEXT NOT NULL DEFAULT (datetime(\x27now\x27)), FOREIGN KEY (student_id) REFERENCES students(id) ON DELETE CASCADE, FOREIGN KEY (course_id) REFERENCES courses(id) ON DELETE CASCADE, UNIQUE(student_id, course_id) );", nParams := 0 } ] }

def exAddStudentOp : DbOperation :=
  { script := "exercises.py", opName := "add_student"
    calls := [ { sql := "INSERT INTO students (name, email) VALUES (?, ?);", nParams := 2 } ] }

def exFindStudentByEmailOp : DbOperation :=
  { script := "exercises.py", opName := "find_student_by_email"
    calls := [ { sql := "SELECT id, name, email FROM students WHERE email = ?;", nParams := 1 } ] }

def exRenameStudentOp : DbOperation :=
  { script := "exercises.py", opName := "rename_student"
    calls := [ { sql := "UPDATE students SET name = ? WHERE id = ?;", nParams := 2 } ] }

def exDeleteStudentOp : DbOperation :=
  { script := "exercises.py", opName := "delete_student"
    calls := [ { sql := "DELETE FROM students WHERE id = ?;", nParams := 1 } ] }

def exListEnrollmentsOp : DbOperation :=
  { script := "exercises.py", opName := "list_enrollments"
    calls := [ { sql := "SELECT s.name AS student_name, c.code AS course_code, c.title AS course_title FROM enrollments e JOIN students s ON s.id = e.student_id JOIN courses c ON c.id = e.course_id ORDER BY student_name, course_code;", nParams := 0 } ] }

def exEnrollStudentOp : DbOperation :=
  { script := "exercises.py", opName := "enroll_student"
    calls := [ { sql := "INSERT INTO enrollments (student_id, course_id) VALUES (?, ?);", nParams := 2 } ] }

def exSeedCoursesOp : DbOperation :=
  { script := "exercises.py", opName := "seed_courses"
    calls := [ { sql := "INSERT INTO courses (code, title) VALUES (?, ?);", nParams := 2 } ] }

def hwCreateSchemaOp : DbOperation :=
  { script := "homework.py", opName := "create_schema"
    calls :=
      [ { sql := "CREATE TABLE students ( id INTEGER PRIMARY KEY AUTOINCREMENT, name TEXT NOT NULL, email TEXT NOT NULL UNIQUE )", nParams := 0 },
        { sql := "CREATE TABLE assignments ( id INTEGER PRIMARY KEY AUTOINCREMENT, title TEXT NOT NULL, max_points INTEGER NOT NULL CHECK (max_points > 0) )", nParams := 0 },
        { sql := "CREATE TABLE grades ( id INTEGER PRIMARY KEY AUTOINCREMENT, student_id INTEGER NOT NULL, assignment_id INTEGER NOT NULL, score INTEGER NOT NULL CHECK (score >= 0), FOREIGN KEY(student_id) REFERENCES students(id), FOREIGN KEY(assignment_id) REFERENCES assignments(id), UNIQUE(student_id, assignment_id) )", nParams := 0 } ] }

def hwAddStudentOp : DbOperation :=
  { script := "homework.py", opName := "add_student"
    calls := [ { sql := "INSERT INTO students (name, email) VALUES (?, ?)", nParams := 2 } ] }

def hwAddAssignmentOp : DbOperation :=
  { script := "homework.py", opName := "add_assignment"
    calls := [ { sql := "INSERT INTO assignments (title, max_points) VALUES (?, ?)", nParams := 2 } ] }

def hwRecordGradeOp : DbOperation :=
  { script := "homework.py", opName := "record_grade"
    calls := [ { sql := "INSERT INTO grades (student_id, assignment_id, score) VALUES (?, ?, ?)", nParams := 3 } ] }

def hwListStudentsOp : DbOperation :=
  { script := "homework.py", opName := "list_students"
    calls := [ { sql := "SELECT * FROM students ORDER BY name", nParams := 0 } ] }

def hwStudentGradeReportOp : DbOperation :=
  { script := "homework.py", opName := "student_grade_report"
    calls := [ { sql := "SELECT assignments.title AS assignment_title, grades.score, assignments.max_points, ROUND(1.0 * grades.score / assignments.max_points * 100, 1) AS percent FROM grades JOIN assignments ON grades.assignment_id = assignments.id WHERE grades.student_id = ?", nParams := 1 } ] }

def hwLeaderboardOp : DbOperation :=
  { script := "homework.py", opName := "leaderboard"
    calls := [ { sql := "SELECT students.name AS student_name, ROUND(AVG(1.0 * grades.score / assignments.max_points * 100), 1) AS avg_percent FROM grades JOIN students ON grades.student_id = students.id JOIN assignments ON grades.assignment_id = assignments.id GROUP BY students.id ORDER BY avg_percent DESC", nParams := 0 } ] }

/-- Every database operation exposed by either script. -/
def exposedOperations : List DbOperation :=
  [ exCreateSchemaOp, exAddStudentOp, exFindStudentByEmailOp, exRenameStudentOp,
    exDeleteStudentOp, exListEnrollmentsOp, exEnrollStudentOp, exSeedCoursesOp,
    hwCreateSchemaOp, hwAddStudentOp, hwAddAssignmentOp, hwRecordGradeOp,
    hwListStudentsOp, hwStudentGradeReportOp, hwLeaderboardOp ]

/-! ## The two schemas as data (transcribed from the CREATE TABLE texts). -/

/-- Declared column types; both schemas use only the scalar types INTEGER
and TEXT, so no column holds a list. -/
inductive ColType where
  | integer
  | text
deriving DecidableEq, Repr

structure ColumnSpec where
  name : String
  ty : ColType
  notNull : Bool
  unique : Bool
  isPrimaryKey : Bool
  hasDefault : Bool
deriving DecidableEq, Repr

structure ForeignKeySpec where
  column : String
  refTable : String
  refColumn : String
  onDeleteCascade : Bool
deriving DecidableEq, Repr

structure TableSpec where
  name : String
  columns : List ColumnSpec
  foreignKeys : List ForeignKeySpec
  uniquePairs : List (String × String)
  checks : List String
deriving DecidableEq, Repr

def exStudentsTable : TableSpec :=
  { name := "students"
    columns :=
      [ { name := "id", ty := .integer, notNull := false, unique := false,
          isPrimaryKey := true, hasDefault := false },
        { name := "name", ty := .text, notNull := true, unique := false,
          isPrimaryKey := false, hasDefault := false },
        { name := "email", ty := .text, notNull := true, unique := true,
          isPrimaryKey := false, hasDefault := false } ]
    foreignKeys := [], uniquePairs := [], checks := [] }

def exCoursesTable : TableSpec :=
  { name := "courses"
    columns :=
      [ { name := "id", ty := .integer, notNull := false, unique := false,
          isPrimaryKey := true, hasDefault := false },
        { name := "code", ty := .text, notNull := true, unique := true,
          isPrimaryKey := false, hasDefault := false },
        { name := "title", ty := .text, notNull := true, unique := false,
          isPrimaryKey := false, hasDefault := false } ]
    foreignKeys := [], uniquePairs := [], checks := [] }

def exEnrollmentsTable : TableSpec :=
  { name := "enrollments"
    columns :=
      [ { name := "id", ty := .integer, notNull := false, unique := false,
          isPrimaryKey := true, hasDefault := false },
        { name := "student_id", ty := .integer, notNull := true, unique := false,
          isPrimaryKey := false, hasDefault := false },
        { name := "course_id", ty := .integer, notNull := true, unique := false,
          isPrimaryKey := false, hasDefault := false },
        { name := "enrolled_at", ty := .text, notNull := true, unique := false,
          isPrimaryKey := false, hasDefault := true } ]
    foreignKeys :=
      [ { column := "student_id", refTable := "students", refColumn := "id",
          onDeleteCascade := true },
        { column := "course_id", refTable := "courses", refColumn := "id",
          onDeleteCascade := true } ]
    uniquePairs := [("student_id", "course_id")], checks := [] }

/-- The schema `create_schema` of exercises.py creates, in order. -/
def exercisesSchema : List TableSpec :=
  [exStudentsTable, exCoursesTable, exEnrollmentsTable]

def hwStudentsTable : TableSpec :=
  { name := "students"
    columns :=
      [ { name := "id", ty := .integer, notNull := false, unique := false,
          isPrimaryKey := true, hasDefault := false },
        { name := "name", ty := .text, notNull := true, unique := false,
          isPrimaryKey := false, hasDefault := false },
        { name := "email", ty := .text, notNull := true, unique := true,
          isPrimaryKey := false, hasDefault := false } ]
    foreignKeys := [], uniquePairs := [], checks := [] }

def hwAssignmentsTable : TableSpec :=
  { name := "assignments"
    columns :=
      [ { name := "id", ty := .integer, notNull := false, unique := false,
          isPrimaryKey := true, hasDefault := false },
        { name := "title", ty := .text, notNull := true, unique := false,
          isPrimaryKey := false, hasDefault := false },
        { name := "max_points", ty := .integer, notNull := true, unique := false,
          isPrimaryKey := false, hasDefault := false } ]
    foreignKeys := [], uniquePairs := [], checks := ["max_points > 0"] }

def hwGradesTable : TableSpec :=
  { name := "grades"
    columns :=
      [ { name := "id", ty := .integer, notNull := false, unique := false,
          isPrimaryKey := true, hasDefault := false },
        { name := "student_id", ty := .integer, notNull := true, unique := false,
          isPrimaryKey := false, hasDefault := false },
        { name := "assignment_id", ty := .integer, notNull := true, unique := false,
          isPrimaryKey := false, hasDefault := false },
        { name := "score", ty := .integer, notNull := true, unique := false,
          isPrimaryKey := false, hasDefault := false } ]
    foreignKeys :=
      [ { column := "student_id", refTable := "students", refColumn := "id",
          onDeleteCascade := false },
        { column := "assignment_id", refTable := "assignments", refColumn := "id",
          onDeleteCascade := false } ]
    uniquePairs := [("student_id", "assignment_id")], checks := ["score >= 0"] }

/-- The schema `create_schema` of homework.py creates, in order. -/
def homeworkSchema : List TableSpec :=
  [hwStudentsTable, hwAssignmentsTable, hwGradesTable]

/-! ## Event traces of the two `main` functions. -/

/-- Observable actions of a `main` run, in program order. -/
inductive Event where
  | openConn
  | createSchemaEvt (script : String)
  | insertRow (table : String)
  | updateRow (table : String)
  | deleteRow (table : String)
  | queryRows (what : String)
  | beginTxn
  | commitTxn
  | rollbackTxn
  | printLine (text : String)
  | printReport (title : String)
  | closeConn
deriving DecidableEq, Repr

/-- `main` of exercises.py between `connect()` and the `finally`: the body
of the `try`, threading the database state and appending one event per
executed statement or print.  A `printReport` event is a `print_rows` call;
a `printLine` event is a plain `print`. -/
def ex_main_body (db0 : ExDB) : Except SqlError (ExDB × List Event) := do
  -- create_schema(conn); seed_courses(conn); conn.commit()
  let db := db0
  let evs : List Event := [.createSchemaEvt "exercises.py"]
  let db ← seed_courses db
  let evs := evs ++ [.insertRow "courses", .insertRow "courses", .insertRow "courses", .commitTxn]
  -- two add_student calls, commit, prints, lookup
  let (db, s1) ← add_student db "Etty" "etty@example.com"
  let evs := evs ++ [.insertRow "students"]
  let (db, _s2) ← add_student db "Rena" "rena@example.com"
  let evs := evs ++ [.insertRow "students", .commitTxn, .printLine "Inserted students"]
  let _row := find_student_by_email db "etty@example.com"
  let evs := evs ++ [.queryRows "students WHERE email", .printLine "Lookup etty@example.com"]
  -- SELECT id FROM courses WHERE code = CS205; fetchone() then row lookup
  let course_cs205 ← match (db.courses.filter (fun c => c.code == "CS205")).head? with
    | some c => pure c.id
    | none => Except.error (.pythonError "fetchone() returned None")
  let evs := evs ++ [.queryRows "courses WHERE code"]
  -- BEGIN; enroll twice (duplicate on purpose); COMMIT / except: ROLLBACK
  let db ← duplicate_enroll_demo db s1 course_cs205
  let evs := evs ++ [.beginTxn, .insertRow "enrollments",
    .printLine "IntegrityError", .printLine "Rolling back transaction...", .rollbackTxn]
  let rows := list_enrollments db
  let evs := evs ++ [.queryRows "enrollments join",
    .printReport "Enrollments (should be empty after rollback)"]
  let _ := rows
  -- the valid transaction
  let db ← enroll_student db s1 course_cs205
  let evs := evs ++ [.beginTxn, .insertRow "enrollments", .commitTxn]
  let _rows2 := list_enrollments db
  let evs := evs ++ [.queryRows "enrollments join", .printReport "Enrollments after valid commit"]
  -- rename, commit, print; SELECT students; print_rows
  let (db, _updated) := rename_student db _s2 "Etty Werczberger"
  let evs := evs ++ [.updateRow "students", .commitTxn, .printLine "rename_student rowcount"]
  let evs := evs ++ [.queryRows "students ORDER BY id", .printReport "Students"]
  -- delete, commit, print; SELECT students; print_rows; final print
  let (db, _deleted) := delete_student db s1
  let evs := evs ++ [.deleteRow "students", .commitTxn, .printLine "delete_student rowcount"]
  let evs := evs ++ [.queryRows "students ORDER BY id", .printReport "Students after delete",
    .printLine "All done."]
  pure (db, evs)

/-- The `conn = connect()` / `try: ... finally: conn.close()` shape shared
by both `main` functions: the connection is opened first and closed after
the body, whether the body returns normally or raises. -/
def run_main_with_finally (body : Except SqlError (δ × List Event)) :
    List Event × Except SqlError Unit :=
  match body with
  | .ok (_, evs) => (Event.openConn :: (evs ++ [Event.closeConn]), .ok ())
  | .error e => ([Event.openConn, Event.closeConn], .error e)

/-- The full `main()` of exercises.py. -/
def ex_main : List Event × Except SqlError Unit :=
  run_main_with_finally (ex_main_body (freshExDB "2026-01-01 00:00:00"))

/-- `main` of homework.py between `connect()` and the `finally`. -/
def hw_main_body (db0 : HwDB) : Except SqlError (HwDB × List Event) := do
  let db := db0
  let evs : List Event := [.createSchemaEvt "homework.py", .commitTxn]
  let (db, s_rivka) ← hw_add_student db "Rivka" "rivka@example.com"
  let (db, s_esther) ← hw_add_student db "Esther" "esther@example.com"
  let (db, s_leah) ← hw_add_student db "Leah" "leah@example.com"
  let evs := evs ++ [.insertRow "students", .insertRow "students", .insertRow "students"]
  let (db, a_q1) ← add_assignment db "Quiz 1" 10
  let (db, a_hw1) ← add_assignment db "Homework 1" 100
  let (db, a_mid) ← add_assignment db "Midterm" 200
  let evs := evs ++ [.insertRow "assignments", .insertRow "assignments", .insertRow "assignments"]
  let (db, _) ← record_grade db s_rivka a_q1 9
  let (db, _) ← record_grade db s_rivka a_hw1 95
  let (db, _) ← record_grade db s_esther a_q1 7
  let (db, _) ← record_grade db s_esther a_hw1 88
  let (db, _) ← record_grade db s_leah a_q1 10
  let (db, _) ← record_grade db s_leah a_hw1 92
  let (db, _) ← record_grade db s_leah a_mid 180
  let evs := evs ++ [.insertRow "grades", .insertRow "grades", .insertRow "grades",
    .insertRow "grades", .insertRow "grades", .insertRow "grades", .insertRow "grades",
    .commitTxn]
  let evs := evs ++ [.queryRows "students ORDER BY name", .printReport "All students"]
  -- for s in list_students(conn): print_rows of that student grade report
  let evs := evs ++ [.queryRows "students ORDER BY name"] ++
    (list_students db).flatMap (fun s =>
      [.queryRows "grades join assignments", .printReport ("Grade report: " ++ s.name)])
  let evs := evs ++ [.queryRows "leaderboard", .printReport "Leaderboard by average percent",
    .printLine "Homework starter created."]
  pure (db, evs)

/-- The full `main()` of homework.py. -/
def hw_main : List Event × Except SqlError Unit :=
  run_main_with_finally (hw_main_body freshHwDB)

/-- Does every `p`-event of the trace occur strictly before every
`q`-event?  Computed as: wherever a `q` stands, no `p` follows it or stands
at the same place. -/
def phasedB (p q : Event → Bool) : List Event → Bool
  | [] => true
  | e :: l => (!(q e) || ((!(p e)) && l.all (fun x => !(p x)))) && phasedB p q l

def isInsertEvt : Event → Bool
  | .insertRow _ => true
  | _ => false

def isReportEvt : Event → Bool
  | .printReport _ => true
  | _ => false

def isSchemaEvt : Event → Bool
  | .createSchemaEvt _ => true
  | _ => false

def isOpenEvt : Event → Bool
  | .openConn => true
  | _ => false

def isCloseEvt : Event → Bool
  | .closeConn => true
  | _ => false

/-! ## print_rows (identical in both scripts), as a pure function.

A `sqlite3.Row` is modelled as its column/value association list in column
order, values already in their `str()` form.  `r[c]` on a missing column
raises (IndexError), modelled by `Option`; `print_rows` returns the list of
printed lines, or `none` when such a lookup fails. -/

def Row : Type := List (String × String)

instance : DecidableEq Row := by
  unfold Row
  infer_instance

/-- `r[c]`: the value of column `c`, or `none` when the row has no such
column. -/
def rowGet (r : Row) (c : String) : Option String :=
  (r.find? (fun kv => kv.1 == c)).map (fun kv => kv.2)

/-- Map a fallible function over a list, failing as soon as one element
fails (the evaluation order of the comprehensions in `print_rows`). -/
def optMap (f : α → Option β) : List α → Option (List β)
  | [] => some []
  | a :: l =>
    match f a, optMap f l with
    | some b, some m => some (b :: m)
    | _, _ => none

/-- Python `str.ljust`: pad on the right with spaces to width `w`; a string
already at least `w` long is returned unchanged. -/
def pyLjust (s : String) (w : Nat) : String :=
  s ++ "".pushn (Char.ofNat 32) (w - s.length)

/-- The `widths` dict comprehension: for each column of the first row, the
larger of the column name length and every value length in that column;
fails when some row lacks the column. -/
def colWidths (rows : List Row) (cols : List String) : Option (List (String × Nat)) :=
  optMap (fun c =>
    (optMap (fun r => rowGet r c) rows).map (fun vals =>
      (c, max c.length ((vals.map String.length).foldl max 0))))
    cols

/-- One data line: each column value looked up and left-justified to the
column width, joined with a separator. -/
def dataLine (widths : List (String × Nat)) (r : Row) : Option String :=
  (optMap (fun cw => (rowGet r cw.1).map (fun v => pyLjust v cw.2)) widths).map
    (String.intercalate " | ")

/-- `print_rows(title, rows)`: the printed lines.  Always starts with a
blank line, an 80-character rule, the title and another rule; an empty list
yields `(no rows)` with no row access; otherwise a header of the first
row's column names, a rule, and one line per row. -/
def print_rows (title : String) (rows : List Row) : Option (List String) :=
  let top := ["", "".pushn (Char.ofNat 61) 80, title, "".pushn (Char.ofNat 45) 80]
  if rows.isEmpty then
    some (top ++ ["(no rows)"])
  else
    match rows.head? with
    | none => none
    | some r0 =>
      let cols := r0.map (fun kv => kv.1)
      match colWidths rows cols with
      | none => none
      | some widths =>
        let headerLine := String.intercalate " | " (widths.map (fun cw => pyLjust cw.1 cw.2))
        let ruleLine := String.intercalate "-+-" (widths.map (fun cw => "".pushn (Char.ofNat 45) cw.2))
        match optMap (dataLine widths) rows with
        | none => none
        | some dataLines => some (top ++ [headerLine, ruleLine] ++ dataLines)

/-- The column names of the first row (the `cols` of `print_rows`); `[]`
when there are no rows. -/
def colsOfHead (rows : List Row) : List String :=
  (rows.head?.getD []).map (fun kv => kv.1)

/-- Bool check that a width table is adequate for a list of rows: every
width at least the column name length and at least the length of every
value present in that column. -/
def widthsAdequate (rows : List Row) (ws : List (String × Nat)) : Bool :=
  ws.all (fun cw =>
    decide (cw.1.length ≤ cw.2) &&
      rows.all (fun r =>
        match rowGet r cw.1 with
        | some v => decide (v.length ≤ cw.2)
        | none => true))

/-! ## Concrete database states reached by `main` of exercises.py. -/

/-- The clock value used for the embedded run of exercises.py. -/
def nowStr : String := "2026-01-01 00:00:00"

/-- The database state of `main` (exercises.py) right before the
duplicate-enrollment transaction block: courses seeded, Etty and Rena
inserted and committed, no enrollments. -/
def ex_db_before_demo : ExDB :=
  match (do
    let db ← seed_courses (freshExDB nowStr)
    let (db, _) ← add_student db "Etty" "etty@example.com"
    let (db, _) ← add_student db "Rena" "rena@example.com"
    pure db : Except SqlError ExDB) with
  | .ok db => db
  | .error _ => freshExDB nowStr

/-- The state after the first (successful) enrollment of the duplicate
block: the pair (1, 2) is now present, so the second identical insert
violates UNIQUE(student_id, course_id). -/
def ex_db_after_first_enroll : ExDB :=
  match enroll_student ex_db_before_demo 1 2 with
  | .ok db => db
  | .error _ => ex_db_before_demo

/-! ## Concrete inputs used by the witnesses. -/

/-- A small exercises database exercising the join: two students, two
courses, three enrollments. -/
def wJoinDb : ExDB :=
  { students := [{ id := 1, name := "Etty", email := "etty@example.com" },
                 { id := 2, name := "Rena", email := "rena@example.com" }]
    courses := [{ id := 1, code := "CS101", title := "Intro to Programming" },
                { id := 2, code := "CS205", title := "Web Development" }]
    enrollments := [{ id := 1, student_id := 2, course_id := 2, enrolled_at := "t1" },
                    { id := 2, student_id := 1, course_id := 2, enrolled_at := "t2" },
                    { id := 3, student_id := 1, course_id := 1, enrolled_at := "t3" }]
    nextStudentId := 3, nextCourseId := 3, nextEnrollmentId := 4, now := "t4" }

/-- A database with no student under the looked-up email. -/
def wNoEmailDb : ExDB :=
  { students := [{ id := 1, name := "Etty", email := "etty@example.com" }]
    courses := [], enrollments := []
    nextStudentId := 2, nextCourseId := 1, nextEnrollmentId := 1, now := "t0" }

/-- A database used to instantiate the delete/insert invariant claims: one
student, one course (whose code none of the seeded codes collide with), one
enrollment. -/
def wInvDb : ExDB :=
  { students := [{ id := 1, name := "Etty", email := "etty@example.com" },
                 { id := 2, name := "Rena", email := "rena@example.com" }]
    courses := [{ id := 1, code := "X100", title := "Sample" }]
    enrollments := [{ id := 1, student_id := 1, course_id := 1, enrolled_at := "t1" }]
    nextStudentId := 3, nextCourseId := 2, nextEnrollmentId := 2, now := "t2" }

/-- `add_student wInvDb "Ahuva" "ahuva@example.com"` succeeds with this
database and lastrowid 3. -/
def wInvDbAfterAdd : ExDB :=
  { wInvDb with
      students := wInvDb.students ++ [{ id := 3, name := "Ahuva", email := "ahuva@example.com" }]
      nextStudentId := 4 }

/-- `enroll_student wInvDb 2 1` succeeds with this database. -/
def wInvDbAfterEnroll : ExDB :=
  { wInvDb with
      enrollments := wInvDb.enrollments ++
        [{ id := 2, student_id := 2, course_id := 1, enrolled_at := "t2" }]
      nextEnrollmentId := 3 }

/-- `seed_courses wInvDb` succeeds with this database. -/
def wInvDbAfterSeed : ExDB :=
  { wInvDb with
      courses := wInvDb.courses ++
        [{ id := 2, code := "CS101", title := "Intro to Programming" },
         { id := 3, code := "CS205", title := "Web Development" },
         { id := 4, code := "CS310", title := "Data Structures" }]
      nextCourseId := 5 }

/-- Two homogeneous rows, as produced by a query. -/
def wGoodRows : List Row :=
  [[("id", "1"), ("name", "Etty")], [("id", "2"), ("name", "Rena")]]

/-- Two rows with different columns: the second lacks column a of the
first, so the widths computation of `print_rows` fails on it. -/
def wBadRows : List Row :=
  [[("a", "1")], [("b", "2")]]

/-! ## Helper lemmas. -/

theorem natListLtB_asymm : ∀ (a b : List Nat),
    natListLtB a b = true → natListLtB b a = false
  | [], [] => by simp [natListLtB]
  | [], _ :: _ => by simp [natListLtB]
  | _ :: _, [] => by simp [natListLtB]
  | a :: as, b :: bs => by
    simp only [natListLtB, Bool.or_eq_true, Bool.and_eq_true, beq_iff_eq,
      decide_eq_true_eq, Bool.or_eq_false_iff, Bool.and_eq_false_iff,
      decide_eq_false_iff_not, not_lt]
    rintro (h | ⟨rfl, h⟩)
    · exact ⟨Nat.le_of_lt h, Or.inl (beq_eq_false_iff_ne.mpr (Nat.ne_of_gt h))⟩
    · exact ⟨Nat.le_refl a, Or.inr (natListLtB_asymm as bs h)⟩

theorem natListLtB_trans : ∀ (a b c : List Nat),
    natListLtB a b = true → natListLtB b c = true → natListLtB a c = true
  | [], [], _ => by simp [natListLtB]
  | [], _ :: _, [] => by simp [natListLtB]
  | [], _ :: _, _ :: _ => by simp [natListLtB]
  | _ :: _, [], _ => by simp [natListLtB]
  | _ :: _, _ :: _, [] => by simp [natListLtB]
  | a :: as, b :: bs, c :: cs => by
    simp only [natListLtB, Bool.or_eq_true, Bool.and_eq_true, beq_iff_eq,
      decide_eq_true_eq]
    rintro (h1 | ⟨rfl, h1⟩) (h2 | ⟨rfl, h2⟩)
    · exact Or.inl (Nat.lt_trans h1 h2)
    · exact Or.inl h1
    · exact Or.inl h2
    · exact Or.inr ⟨rfl, natListLtB_trans as bs cs h1 h2⟩

theorem natListLtB_conn : ∀ (a b : List Nat),
    natListLtB a b = false → natListLtB b a = false → a = b
  | [], [] => by simp
  | [], _ :: _ => by simp [natListLtB]
  | _ :: _, [] => by simp [natListLtB]
  | a :: as, b :: bs => by
    simp only [natListLtB, Bool.or_eq_false_iff, Bool.and_eq_false_iff,
      decide_eq_false_iff_not, not_lt, beq_eq_false_iff_ne, ne_eq]
    rintro ⟨hba, h1⟩ ⟨hab, h2⟩
    have hab' : a = b := Nat.le_antisymm hab hba
    subst hab'
    rcases h1 with h1 | h1
    · exact absurd rfl h1
    · rcases h2 with h2 | h2
      · exact absurd rfl h2
      · rw [natListLtB_conn as bs h1 h2]

theorem natListLeB_total (a b : List Nat) :
    natListLeB a b = true ∨ natListLeB b a = true := by
  unfold natListLeB
  cases h : natListLtB b a with
  | false => exact Or.inl rfl
  | true =>
    refine Or.inr ?_
    rw [natListLtB_asymm b a h]
    rfl

theorem natListLeB_trans (a b c : List Nat)
    (h1 : natListLeB a b = true) (h2 : natListLeB b c = true) :
    natListLeB a c = true := by
  unfold natListLeB at h1 h2 ⊢
  rw [Bool.not_eq_true'] at h1 h2 ⊢
  cases hca : natListLtB c a with
  | false => rfl
  | true =>
    exfalso
    cases hab : natListLtB a b with
    | true => exact absurd (natListLtB_trans c a b hca hab) (by rw [h2]; simp)
    | false =>
      have : a = b := natListLtB_conn a b hab h1
      subst this
      exact absurd hca (by rw [h2]; simp)

theorem natListLtB_irrefl (a : List Nat) : natListLtB a a = false := by
  cases h : natListLtB a a with
  | false => rfl
  | true => exact absurd (natListLtB_asymm a a h) (by rw [h]; simp)

theorem natListLtB_le (a b : List Nat) (h : natListLtB a b = true) :
    natListLeB a b = true := by
  unfold natListLeB
  rw [natListLtB_asymm a b h]
  rfl

theorem reportLE_total : ∀ (a b : EnrollmentReportRow), reportLE a b ∨ reportLE b a := by
  intro a b
  unfold reportLE
  simp only [Bool.or_eq_true, Bool.and_eq_true, beq_iff_eq]
  cases h1 : natListLtB (textKey a.student_name) (textKey b.student_name) with
  | true => exact Or.inl (Or.inl rfl)
  | false =>
    cases h2 : natListLtB (textKey b.student_name) (textKey a.student_name) with
    | true => exact Or.inr (Or.inl rfl)
    | false =>
      have heq := natListLtB_conn _ _ h1 h2
      rcases natListLeB_total (textKey a.course_code) (textKey b.course_code) with h | h
      · exact Or.inl (Or.inr ⟨heq, h⟩)
      · exact Or.inr (Or.inr ⟨heq.symm, h⟩)

theorem reportLE_trans : ∀ (a b c : EnrollmentReportRow),
    reportLE a b → reportLE b c → reportLE a c := by
  intro a b c hab hbc
  unfold reportLE at hab hbc ⊢
  simp only [Bool.or_eq_true, Bool.and_eq_true, beq_iff_eq] at hab hbc ⊢
  rcases hab with hab | ⟨hab, hab2⟩
  · rcases hbc with hbc | ⟨hbc, hbc2⟩
    · exact Or.inl (natListLtB_trans _ _ _ hab hbc)
    · exact Or.inl (hbc ▸ hab)
  · rcases hbc with hbc | ⟨hbc, hbc2⟩
    · exact Or.inl (hab ▸ hbc)
    · exact Or.inr ⟨hab.trans hbc, natListLeB_trans _ _ _ hab2 hbc2⟩

theorem filter_key_singleton {α β : Type} [DecidableEq β] (f : α → β)
    (l : List α) (hnd : (l.map f).Nodup) {a : α} (ha : a ∈ l) {v : β} (hv : f a = v) :
    l.filter (fun x => f x == v) = [a] := by
  induction l with
  | nil => cases ha
  | cons b l ih =>
    rw [List.map_cons, List.nodup_cons] at hnd
    obtain ⟨hb, hnd⟩ := hnd
    rw [List.filter_cons]
    rcases List.mem_cons.mp ha with rfl | ha
    · rw [if_pos (by simp [hv])]
      have : l.filter (fun x => f x == v) = [] := by
        rw [List.filter_eq_nil_iff]
        intro x hx hfx
        exact hb (hv ▸ (beq_iff_eq.mp hfx) ▸ List.mem_map_of_mem f hx)
      rw [this]
    · have hbv : (f b == v) = false := by
        rw [beq_eq_false_iff_ne]
        intro hfb
        exact hb (hfb ▸ hv ▸ List.mem_map_of_mem f ha)
      rw [if_neg (by simp [hbv])]
      exact ih hnd ha

theorem find?_of_filter_singleton {α : Type} (p : α → Bool) (l : List α) (a : α)
    (h : l.filter p = [a]) : l.find? p = some a := by
  induction l with
  | nil => simp at h
  | cons b l ih =>
    rw [List.filter_cons] at h
    rw [List.find?_cons]
    by_cases hpb : p b = true
    · rw [if_pos hpb] at h
      obtain ⟨rfl, -⟩ := List.cons_eq_cons.mp h
      simp [hpb]
    · rw [if_neg hpb] at h
      have hpb' : p b = false := Bool.eq_false_iff.mpr hpb
      simp only [hpb']
      exact ih h

theorem optMap_some_of_forall {α β : Type} (f : α → Option β) (l : List α)
    (h : ∀ a ∈ l, (f a).isSome = true) :
    ∃ m, optMap f l = some m ∧ m.length = l.length := by
  induction l with
  | nil => exact ⟨[], rfl, rfl⟩
  | cons a l ih =>
    obtain ⟨b, hb⟩ := Option.isSome_iff_exists.mp (h a (List.mem_cons_self a l))
    obtain ⟨m, hm, hlen⟩ := ih (fun x hx => h x (List.mem_cons_of_mem a hx))
    exact ⟨b :: m, by rw [optMap, hb, hm], by simp [hlen]⟩

theorem optMap_mem_src {α β : Type} (f : α → Option β) (l : List α) (m : List β)
    (h : optMap f l = some m) : ∀ b ∈ m, ∃ a ∈ l, f a = some b := by
  induction l generalizing m with
  | nil =>
    rw [optMap] at h
    obtain rfl : ([] : List β) = m := Option.some.inj h
    intro b hb
    cases hb
  | cons a l ih =>
    rw [optMap] at h
    cases hfa : f a with
    | none => rw [hfa] at h; cases h
    | some b0 =>
      rw [hfa] at h
      cases hrest : optMap f l with
      | none => rw [hrest] at h; cases h
      | some m0 =>
        rw [hrest] at h
        obtain rfl : b0 :: m0 = m := Option.some.inj h
        intro b hb
        rcases List.mem_cons.mp hb with rfl | hb
        · exact ⟨a, List.mem_cons_self a l, hfa⟩
        · obtain ⟨a1, ha1, hfa1⟩ := ih m0 hrest b hb
          exact ⟨a1, List.mem_cons_of_mem a ha1, hfa1⟩

theorem optMap_mem_img {α β : Type} (f : α → Option β) (l : List α) (m : List β)
    (h : optMap f l = some m) : ∀ a ∈ l, ∀ b, f a = some b → b ∈ m := by
  induction l generalizing m with
  | nil =>
    intro a ha
    cases ha
  | cons a0 l ih =>
    rw [optMap] at h
    cases hfa : f a0 with
    | none => rw [hfa] at h; cases h
    | some b0 =>
      rw [hfa] at h
      cases hrest : optMap f l with
      | none => rw [hrest] at h; cases h
      | some m0 =>
        rw [hrest] at h
        obtain rfl : b0 :: m0 = m := Option.some.inj h
        intro a ha b hb
        rcases List.mem_cons.mp ha with rfl | ha
        · rw [hfa] at hb
          exact (Option.some.inj hb) ▸ List.mem_cons_self b0 m0
        · exact List.mem_cons_of_mem b0 (ih m0 hrest a ha b hb)

theorem le_foldl_max_init (l : List ℕ) (init : ℕ) : init ≤ l.foldl max init := by
  induction l generalizing init with
  | nil => exact le_refl init
  | cons a l ih => exact le_trans (le_max_left init a) (ih (max init a))

theorem le_foldl_max_mem (l : List ℕ) (init x : ℕ) (hx : x ∈ l) : x ≤ l.foldl max init := by
  induction l generalizing init with
  | nil => cases hx
  | cons a l ih =>
    rcases List.mem_cons.mp hx with rfl | hx
    · exact le_trans (le_max_right init x) (le_foldl_max_init l (max init x))
    · exact ih (max init a) hx

theorem enroll_student_only_integrity (db : ExDB) (sid cid : Nat) (m : String) :
    enroll_student db sid cid ≠ Except.error (SqlError.pythonError m) := by
  unfold enroll_student
  split
  · simp
  · split
    · simp
    · split <;> simp

theorem enroll_student_ok (db : ExDB) (sid cid : Nat) (db' : ExDB)
    (h : enroll_student db sid cid = Except.ok db') :
    db'.students = db.students ∧ db'.courses = db.courses ∧
    db'.enrollments = db.enrollments ++
      [{ id := db.nextEnrollmentId, student_id := sid, course_id := cid,
         enrolled_at := db.now }] ∧
    (∃ s ∈ db.students, s.id = sid) ∧ (∃ c ∈ db.courses, c.id = cid) := by
  unfold enroll_student at h
  split at h
  · cases h
  next hstu =>
    split at h
    · cases h
    next hcrs =>
      split at h
      · cases h
      next hdup =>
        obtain rfl := Except.ok.inj h
        refine ⟨rfl, rfl, rfl, ?_, ?_⟩
        · rw [Bool.not_eq_true, List.all_eq_false] at hstu
          obtain ⟨s, hs, hss⟩ := hstu
          rw [Bool.not_eq_true, bne_eq_false_iff_eq] at hss
          exact ⟨s, hs, hss⟩
        · rw [Bool.not_eq_true, List.all_eq_false] at hcrs
          obtain ⟨c, hc, hcc⟩ := hcrs
          rw [Bool.not_eq_true, bne_eq_false_iff_eq] at hcc
          exact ⟨c, hc, hcc⟩

theorem duplicate_enroll_demo_rolls_back (db : ExDB) (sid cid : Nat) :
    duplicate_enroll_demo db sid cid = Except.ok db := by
  unfold duplicate_enroll_demo
  cases h1 : enroll_student db sid cid with
  | error e =>
    cases e with
    | integrityError m => rfl
    | pythonError m => exact absurd h1 (enroll_student_only_integrity db sid cid m)
  | ok db1 =>
    obtain ⟨hs, hc, he, ⟨s, hsm, hsid⟩, ⟨c, hcm, hcid⟩⟩ := enroll_student_ok db sid cid db1 h1
    have h2 : enroll_student db1 sid cid =
        Except.error (SqlError.integrityError
          "UNIQUE constraint failed: enrollments.student_id, enrollments.course_id") := by
      unfold enroll_student
      rw [hs, hc, he]
      have c1 : db.students.all (fun s => s.id != sid) = false := by
        rw [List.all_eq_false]
        exact ⟨s, hsm, by simp [hsid]⟩
      have c2 : db.courses.all (fun c => c.id != cid) = false := by
        rw [List.all_eq_false]
        exact ⟨c, hcm, by simp [hcid]⟩
      have c3 : ((db.enrollments ++
          [({ id := db.nextEnrollmentId, student_id := sid, course_id := cid,
              enrolled_at := db.now } : EnrollmentRow)]).any
          (fun e => e.student_id == sid && e.course_id == cid)) = true := by
        rw [List.any_eq_true]
        refine ⟨{ id := db.nextEnrollmentId, student_id := sid, course_id := cid,
                  enrolled_at := db.now }, List.mem_append_right _ (List.mem_cons_self _ _), ?_⟩
        simp
      simp [c1, c2, c3]
    simp [h2]

theorem add_student_ok (db : ExDB) (nm em : String) (db' : ExDB) (rid : Nat)
    (h : add_student db nm em = Except.ok (db', rid)) :
    db'.students = db.students ++ [{ id := db.nextStudentId, name := nm, email := em }] ∧
    db'.courses = db.courses ∧ db'.enrollments = db.enrollments := by
  unfold add_student at h
  split at h
  · cases h
  · obtain h := Except.ok.inj h
    obtain rfl : db' = _ := (Prod.ext_iff.mp h).1.symm
    exact ⟨rfl, rfl, rfl⟩

theorem insert_course_ok (db : ExDB) (code title : String) (db' : ExDB)
    (h : insert_course db code title = Except.ok db') :
    db'.students = db.students ∧ db'.enrollments = db.enrollments ∧
    ∀ c ∈ db.courses, c ∈ db'.courses := by
  unfold insert_course at h
  split at h
  · cases h
  · obtain rfl := Except.ok.inj h
    exact ⟨rfl, rfl, fun c hc => List.mem_append_left _ hc⟩

theorem seed_courses_ok (db : ExDB) (db' : ExDB)
    (h : seed_courses db = Except.ok db') :
    db'.students = db.students ∧ db'.enrollments = db.enrollments ∧
    ∀ c ∈ db.courses, c ∈ db'.courses := by
  unfold seed_courses at h
  cases h1 : insert_course db "CS101" "Intro to Programming" with
  | error e => rw [h1] at h; cases h
  | ok db1 =>
    rw [h1] at h
    dsimp only at h
    obtain ⟨hs1, he1, hc1⟩ := insert_course_ok _ _ _ _ h1
    cases h2 : insert_course db1 "CS205" "Web Development" with
    | error e => rw [h2] at h; cases h
    | ok db2 =>
      rw [h2] at h
      dsimp only at h
      obtain ⟨hs2, he2, hc2⟩ := insert_course_ok _ _ _ _ h2
      obtain ⟨hs3, he3, hc3⟩ := insert_course_ok _ _ _ _ h
      refine ⟨by rw [hs3, hs2, hs1], by rw [he3, he2, he1], ?_⟩
      exact fun c hc => hc3 c (hc2 c (hc1 c hc))

/-- The inner double filter of the join collapses to the unique referenced
student and course when primary keys are unique and the enrollment
references existing rows. -/
theorem join_flatMap_eq_map (db : ExDB) (L : List EnrollmentRow)
    (hs : (db.students.map StudentRow.id).Nodup)
    (hc : (db.courses.map CourseRow.id).Nodup)
    (href : ∀ e ∈ L, (∃ s ∈ db.students, s.id = e.student_id) ∧
      ∃ c ∈ db.courses, c.id = e.course_id) :
    (L.flatMap fun e =>
      (db.students.filter (fun s => s.id == e.student_id)).flatMap fun s =>
        (db.courses.filter (fun c => c.id == e.course_id)).map fun c =>
          ({ student_name := s.name, course_code := c.code, course_title := c.title } :
            EnrollmentReportRow)) = L.map (joinedRow db) := by
  induction L with
  | nil => rfl
  | cons e L ih =>
    rw [List.flatMap_cons, List.map_cons,
      ih (fun x hx => href x (List.mem_cons_of_mem _ hx))]
    obtain ⟨⟨s, hsm, hsid⟩, ⟨c, hcm, hcid⟩⟩ := href e (List.mem_cons_self _ _)
    have hfs : db.students.filter (fun x => x.id == e.student_id) = [s] :=
      filter_key_singleton StudentRow.id db.students hs hsm hsid
    have hfc : db.courses.filter (fun x => x.id == e.course_id) = [c] :=
      filter_key_singleton CourseRow.id db.courses hc hcm hcid
    have hjr : joinedRow db e =
        { student_name := s.name, course_code := c.code, course_title := c.title } := by
      unfold joinedRow
      rw [find?_of_filter_singleton _ _ _ hfs, find?_of_filter_singleton _ _ _ hfc]
    rw [hfs, hfc, hjr]
    rfl

/-! ## The claims. -/

/-- Claim C1: enrolling the same (student_id, course_id) pair twice inside
the BEGIN/enroll/enroll block makes the second insert violate
UNIQUE(student_id, course_id) with a `sqlite3.IntegrityError`, the block
rolls back, and no enrollment of the block survives: for every database
state the whole try/except block is the identity on the database, and at
the state `main` reaches before the block (students Etty and Rena, the
three seeded courses, no enrollments) `list_enrollments` afterwards returns
the empty list. -/
theorem claim1_duplicate_enroll_rolls_back :
    (∀ (db : ExDB) (sid cid : Nat),
      duplicate_enroll_demo db sid cid = Except.ok db) ∧
    enroll_student ex_db_before_demo 1 2 = Except.ok ex_db_after_first_enroll ∧
    enroll_student ex_db_after_first_enroll 1 2 = Except.error (SqlError.integrityError
      "UNIQUE constraint failed: enrollments.student_id, enrollments.course_id") ∧
    duplicate_enroll_demo ex_db_before_demo 1 2 = Except.ok ex_db_before_demo ∧
    list_enrollments ex_db_before_demo = [] := by
  refine ⟨duplicate_enroll_demo_rolls_back, rfl, rfl, rfl, rfl⟩

/-- Claim C2 counterexample: the claim says every exposed operation
executes exactly one SQL statement, but `create_schema` of exercises.py
hands the engine an `executescript` of three CREATE TABLE statements. -/
theorem claim2_counterexample :
    exCreateSchemaOp ∈ exposedOperations ∧
    exCreateSchemaOp.calls.length = 3 ∧ exCreateSchemaOp.calls.length ≠ 1 := by
  exact ⟨List.Mem.head _, rfl, by decide⟩

/-- Claim C2 (amended): every exposed operation passes all variable values
through ? placeholders (the placeholder count of each fixed statement text
equals the number of values bound to it, with no string concatenation),
and every operation except the two `create_schema` functions executes
exactly one SQL statement. -/
theorem claim2_parameterized_statements :
    (exposedOperations.all (fun op =>
      op.calls.all (fun call => countPlaceholders call.sql == call.nParams) &&
        (op.opName == "create_schema" || op.calls.length == 1))) = true := by
  decide

/-- Claim C3: `create_schema` of exercises.py creates exactly the tables
students, courses, enrollments and `create_schema` of homework.py exactly
students, assignments, grades; each linking table has foreign keys on its
two reference id columns into the two other tables together with a UNIQUE
constraint on that pair; and every column of every table has a scalar
INTEGER or TEXT type, so no column stores a list. -/
theorem claim3_schemas :
    exercisesSchema.map TableSpec.name = ["students", "courses", "enrollments"] ∧
    homeworkSchema.map TableSpec.name = ["students", "assignments", "grades"] ∧
    exEnrollmentsTable.foreignKeys =
      [{ column := "student_id", refTable := "students", refColumn := "id",
         onDeleteCascade := true },
       { column := "course_id", refTable := "courses", refColumn := "id",
         onDeleteCascade := true }] ∧
    exEnrollmentsTable.uniquePairs = [("student_id", "course_id")] ∧
    hwGradesTable.foreignKeys =
      [{ column := "student_id", refTable := "students", refColumn := "id",
         onDeleteCascade := false },
       { column := "assignment_id", refTable := "assignments", refColumn := "id",
         onDeleteCascade := false }] ∧
    hwGradesTable.uniquePairs = [("student_id", "assignment_id")] ∧
    ((exercisesSchema ++ homeworkSchema).all (fun t =>
      t.columns.all (fun c => c.ty == ColType.integer || c.ty == ColType.text))) = true := by
  exact ⟨rfl, rfl, rfl, rfl, rfl, rfl, rfl⟩

/-- Claim C4 counterexample: in `main` of exercises.py the sample-row
inserts do NOT all precede the report printing: the trace prints the
rollback report (position 19) and only afterwards (position 21) inserts the
surviving sample enrollment; the rename and delete follow still later. -/
theorem claim4_counterexample :
    ex_main.1[19]? = some (Event.printReport "Enrollments (should be empty after rollback)") ∧
    ex_main.1[21]? = some (Event.insertRow "enrollments") ∧
    isReportEvt (Event.printReport "Enrollments (should be empty after rollback)") = true ∧
    isInsertEvt (Event.insertRow "enrollments") = true ∧
    19 < 21 := by
  refine ⟨rfl, rfl, rfl, rfl, by decide⟩

/-- Claim C4 (amended): in both scripts `main` opens the connection first,
creates the schema before any row insert, and closes the connection as the
final action, on every path of the try/finally including exceptions; in
homework.py every sample-row insert precedes every report print, while in
exercises.py the student and course inserts precede every report but the
surviving enrollment insert, the rename and the delete are interleaved
between the report printings. -/
theorem claim4_main_order :
    ex_main.1.head? = some Event.openConn ∧
    hw_main.1.head? = some Event.openConn ∧
    phasedB isOpenEvt isSchemaEvt ex_main.1 = true ∧
    phasedB isSchemaEvt isInsertEvt ex_main.1 = true ∧
    phasedB isOpenEvt isSchemaEvt hw_main.1 = true ∧
    phasedB isSchemaEvt isInsertEvt hw_main.1 = true ∧
    phasedB isInsertEvt isReportEvt hw_main.1 = true ∧
    phasedB (fun e => e == Event.insertRow "students" || e == Event.insertRow "courses")
      isReportEvt ex_main.1 = true ∧
    ex_main.1.getLast? = some Event.closeConn ∧
    hw_main.1.getLast? = some Event.closeConn ∧
    ex_main.1.count Event.closeConn = 1 ∧
    hw_main.1.count Event.closeConn = 1 ∧
    (∀ (δ : Type) (body : Except SqlError (δ × List Event)),
      (run_main_with_finally body).1.head? = some Event.openConn ∧
      (run_main_with_finally body).1.getLast? = some Event.closeConn) := by
  refine ⟨rfl, rfl, by decide, by decide, by decide, by decide, by decide, by decide,
    by decide, by decide, by decide, by decide, ?_⟩
  intro δ body
  cases body with
  | ok p =>
    refine ⟨rfl, ?_⟩
    show (Event.openConn :: (p.2 ++ [Event.closeConn])).getLast? = some Event.closeConn
    rw [← List.cons_append]
    exact List.getLast?_concat _
  | error e => exact ⟨rfl, rfl⟩

/-- Claim C5: for every database state whose primary keys are unique and
whose enrollments reference existing rows (every state SQLite admits under
the schema), `list_enrollments` returns exactly one row per enrollments
row — a permutation of the enrollments mapped to their joined
(student_name, course_code, course_title) rows, each field looked up in the
referenced student and course row — and the result is sorted by
student_name and then course_code. -/
theorem claim5_list_enrollments (db : ExDB)
    (hnd : (db.students.map StudentRow.id).Nodup)
    (hcd : (db.courses.map CourseRow.id).Nodup)
    (href : ∀ e ∈ db.enrollments, (∃ s ∈ db.students, s.id = e.student_id) ∧
      ∃ c ∈ db.courses, c.id = e.course_id) :
    (list_enrollments db).Perm (db.enrollments.map (joinedRow db)) ∧
    (list_enrollments db).Sorted reportLE := by
  have h1 : joinEnrollments db = db.enrollments.map (joinedRow db) :=
    join_flatMap_eq_map db db.enrollments hnd hcd href
  constructor
  · have h2 : (list_enrollments db).Perm (joinEnrollments db) :=
      List.perm_insertionSort reportLE (joinEnrollments db)
    exact h1 ▸ h2
  · letI : IsTotal EnrollmentReportRow reportLE := ⟨reportLE_total⟩
    letI : IsTrans EnrollmentReportRow reportLE := ⟨reportLE_trans⟩
    exact List.sorted_insertionSort reportLE (joinEnrollments db)

/-- Witness for C5: the theorem applied to a concrete database with two
students, two courses and three enrollments. -/
theorem claim5_witness :
    (list_enrollments wJoinDb).Perm (wJoinDb.enrollments.map (joinedRow wJoinDb)) ∧
    (list_enrollments wJoinDb).Sorted reportLE :=
  claim5_list_enrollments wJoinDb (by decide) (by decide) (by decide)

/-- Claim C6 counterexample: `print_rows` is NOT total on every finite
list of rows: on a list whose second row lacks a column of the first row,
the width computation's `r[c]` lookup fails (a KeyError in Python,
modelled as `none`). -/
theorem claim6_counterexample : print_rows "T" wBadRows = none := rfl

/-- Claim C6 (amended): `print_rows` is total on every finite list of rows
in which each row has every column of the first row — in particular on
every query result: on the empty list it prints exactly the title block
and `(no rows)` without any row access, and otherwise it prints the title
block, a header of the first row's column names, a rule and one line per
row, where each column's width is at least the length of the column name
and of every value's string form in that column. -/
theorem claim6_print_rows (title : String) (rows : List Row)
    (h : ∀ r ∈ rows, ∀ c ∈ colsOfHead rows, (rowGet r c).isSome = true) :
    print_rows title [] = some ["", "".pushn (Char.ofNat 61) 80, title,
      "".pushn (Char.ofNat 45) 80, "(no rows)"] ∧
    (print_rows title rows).isSome = true ∧
    ((print_rows title rows).getD []).length =
      (if rows.isEmpty then 5 else 6 + rows.length) ∧
    (colWidths rows (colsOfHead rows)).isSome = true ∧
    widthsAdequate rows ((colWidths rows (colsOfHead rows)).getD []) = true := by
  refine ⟨rfl, ?_⟩
  cases rows with
  | nil => exact ⟨rfl, rfl, rfl, rfl⟩
  | cons r0 rest =>
    have hval : ∀ c ∈ r0.map (fun kv => kv.1), ∀ r ∈ r0 :: rest,
        (rowGet r c).isSome = true := by
      intro c hc r hr
      exact h r hr c hc
    have hcwf : ∀ c ∈ r0.map (fun kv => kv.1),
        ((optMap (fun r => rowGet r c) (r0 :: rest)).map (fun vals =>
          (c, max c.length ((vals.map String.length).foldl max 0)))).isSome = true := by
      intro c hc
      obtain ⟨m, hm, -⟩ := optMap_some_of_forall (fun r => rowGet r c) (r0 :: rest)
        (fun r hr => hval c hc r hr)
      rw [hm]
      rfl
    obtain ⟨ws, hws, hwslen⟩ := optMap_some_of_forall _ _ hcwf
    have hws' : colWidths (r0 :: rest) (r0.map (fun kv => kv.1)) = some ws := hws
    have hadq : widthsAdequate (r0 :: rest) ws = true := by
      rw [widthsAdequate, List.all_eq_true]
      intro cw hcwm
      obtain ⟨c, hc, hfc⟩ := optMap_mem_src _ _ _ hws cw hcwm
      obtain ⟨vals, hvals, hg⟩ := Option.map_eq_some'.mp hfc
      rw [Bool.and_eq_true]
      constructor
      · rw [← hg]
        exact decide_eq_true (le_max_left _ _)
      · rw [List.all_eq_true]
        intro r hr
        rw [← hg]
        cases hv : rowGet r c with
        | none => rfl
        | some v =>
          have hvmem : v ∈ vals := optMap_mem_img _ _ _ hvals r hr v hv
          have hle : v.length ≤ (vals.map String.length).foldl max 0 :=
            le_foldl_max_mem _ 0 _ (List.mem_map_of_mem String.length hvmem)
          exact decide_eq_true (le_trans hle (le_max_right _ _))
    have hdlf : ∀ r ∈ r0 :: rest, (dataLine ws r).isSome = true := by
      intro r hr
      rw [dataLine]
      have hcell : ∀ cw ∈ ws, ((rowGet r cw.1).map (fun v => pyLjust v cw.2)).isSome = true := by
        intro cw hcwm
        obtain ⟨c, hc, hfc⟩ := optMap_mem_src _ _ _ hws cw hcwm
        obtain ⟨vals, hvals, hg⟩ := Option.map_eq_some'.mp hfc
        have hc1 : cw.1 = c := by rw [← hg]
        rw [hc1]
        obtain ⟨v, hv⟩ := Option.isSome_iff_exists.mp (hval c hc r hr)
        rw [hv]
        rfl
      obtain ⟨m, hm, -⟩ := optMap_some_of_forall _ _ hcell
      rw [hm]
      rfl
    obtain ⟨dls, hdls, hdlslen⟩ := optMap_some_of_forall _ _ hdlf
    have hpr : print_rows title (r0 :: rest) = some
        (["", "".pushn (Char.ofNat 61) 80, title, "".pushn (Char.ofNat 45) 80] ++
          [String.intercalate " | " (ws.map (fun cw => pyLjust cw.1 cw.2)),
           String.intercalate "-+-" (ws.map (fun cw => "".pushn (Char.ofNat 45) cw.2))] ++
          dls) := by
      rw [print_rows]
      simp only [List.isEmpty_cons, List.head?_cons]
      rw [if_neg (by simp)]
      rw [hws']
      dsimp only
      rw [hdls]
    have hcolseq : colsOfHead (r0 :: rest) = r0.map (fun kv => kv.1) := rfl
    refine ⟨by rw [hpr]; rfl, ?_, by rw [hcolseq, hws']; rfl,
      by rw [hcolseq, hws']; exact hadq⟩
    rw [hpr]
    simp only [Option.getD_some, List.length_append, List.isEmpty_cons, if_false,
      List.length_cons, hdlslen]
    simp

/-- Witness for C6 (amended): the theorem applied to a concrete pair of
homogeneous rows. -/
theorem claim6_witness :
    print_rows "Students" [] = some ["", "".pushn (Char.ofNat 61) 80, "Students",
      "".pushn (Char.ofNat 45) 80, "(no rows)"] ∧
    (print_rows "Students" wGoodRows).isSome = true ∧
    ((print_rows "Students" wGoodRows).getD []).length =
      (if wGoodRows.isEmpty then 5 else 6 + wGoodRows.length) ∧
    (colWidths wGoodRows (colsOfHead wGoodRows)).isSome = true ∧
    widthsAdequate wGoodRows ((colWidths wGoodRows (colsOfHead wGoodRows)).getD []) = true :=
  claim6_print_rows "Students" wGoodRows (by decide)

/-- Claim C8: `find_student_by_email` returns None exactly when no
students row carries the email, and when a row with that email exists in a
state whose emails are UNIQUE (as the schema enforces) it returns that
unique row with its id, name and email fields. -/
theorem claim8_find_student_by_email (dbN dbF : ExDB) (em1 em2 : String) (s : StudentRow)
    (hnone : dbN.students.all (fun x => x.email != em1) = true)
    (hu : (dbF.students.map StudentRow.email).Nodup)
    (hs : s ∈ dbF.students) (he : s.email = em2) :
    find_student_by_email dbN em1 = none ∧ find_student_by_email dbF em2 = some s := by
  constructor
  · unfold find_student_by_email
    have hfil : dbN.students.filter (fun x => x.email == em1) = [] := by
      rw [List.filter_eq_nil_iff]
      intro x hx
      rw [List.all_eq_true] at hnone
      have hne := hnone x hx
      rw [bne_iff_ne] at hne
      simp [hne]
    rw [hfil]
    rfl
  · unfold find_student_by_email
    rw [filter_key_singleton StudentRow.email dbF.students hu hs he]
    rfl

/-- Witness for C8: a concrete database with a single student; lookup of a
missing email and of the present email. -/
theorem claim8_witness :
    find_student_by_email wNoEmailDb "missing@example.com" = none ∧
    find_student_by_email wNoEmailDb "etty@example.com" =
      some { id := 1, name := "Etty", email := "etty@example.com" } :=
  claim8_find_student_by_email wNoEmailDb wNoEmailDb "missing@example.com" "etty@example.com"
    { id := 1, name := "Etty", email := "etty@example.com" }
    (by decide) (by decide) (by decide) (by decide)

/-- Claim C10: with PRAGMA foreign_keys ON and ON DELETE CASCADE declared
on both foreign keys of enrollments, `delete_student` removes the student
row and every enrollment referencing it and returns the number of students
rows deleted — 1 when the id existed, else 0 (ids being unique); and every
state-changing operation of the script (delete_student, rename_student,
add_student, enroll_student, seed_courses) preserves the invariant that
each enrollments row references an existing student and an existing
course. -/
theorem claim10_delete_cascade (db dbA dbE dbS : ExDB) (sid cid ridA : Nat) (nm em : String)
    (hnd : (db.students.map StudentRow.id).Nodup)
    (hri : refIntegrity db)
    (hadd : add_student db nm em = Except.ok (dbA, ridA))
    (henr : enroll_student db sid cid = Except.ok dbE)
    (hseed : seed_courses db = Except.ok dbS) :
    (delete_student db sid).2 = (if db.students.any (fun s => s.id == sid) then 1 else 0) ∧
    (delete_student db sid).1.students.all (fun s => s.id != sid) = true ∧
    (delete_student db sid).1.enrollments.all (fun e => e.student_id != sid) = true ∧
    exEnrollmentsTable.foreignKeys.all (fun fk => fk.onDeleteCascade) = true ∧
    refIntegrity (delete_student db sid).1 ∧
    refIntegrity (rename_student db sid nm).1 ∧
    refIntegrity dbA ∧ refIntegrity dbE ∧ refIntegrity dbS := by
  obtain ⟨hsA, hcA, heA⟩ := add_student_ok db nm em dbA ridA hadd
  obtain ⟨hsE, hcE, heE, ⟨se, hsem, hseid⟩, ⟨ce, hcem, hceid⟩⟩ :=
    enroll_student_ok db sid cid dbE henr
  obtain ⟨hsS, heS, hcS⟩ := seed_courses_ok db dbS hseed
  refine ⟨?_, ?_, ?_, rfl, ?_, ?_, ?_, ?_, ?_⟩
  · show (db.students.filter (fun s => s.id == sid)).length = _
    cases hany : db.students.any (fun s => s.id == sid) with
    | true =>
      obtain ⟨s, hsm, hss⟩ := List.any_eq_true.mp hany
      rw [filter_key_singleton StudentRow.id db.students hnd hsm (beq_iff_eq.mp hss)]
      rfl
    | false =>
      have hfil : db.students.filter (fun s => s.id == sid) = [] := by
        rw [List.filter_eq_nil_iff]
        intro x hx
        rw [List.any_eq_false] at hany
        exact hany x hx
      rw [hfil]
      rfl
  · rw [List.all_eq_true]
    intro x hx
    exact (List.mem_filter.mp hx).2
  · rw [List.all_eq_true]
    intro x hx
    exact (List.mem_filter.mp hx).2
  · -- delete_student preserves referential integrity (CASCADE)
    intro e he
    obtain ⟨hem, hene⟩ := List.mem_filter.mp he
    obtain ⟨⟨s, hsm, hsid⟩, ⟨c, hcm, hcid⟩⟩ := hri e hem
    refine ⟨⟨s, ?_, hsid⟩, ⟨c, hcm, hcid⟩⟩
    show s ∈ db.students.filter (fun s => s.id != sid)
    rw [List.mem_filter]
    refine ⟨hsm, ?_⟩
    rw [show s.id = e.student_id from hsid]
    exact hene
  · -- rename_student preserves referential integrity
    intro e he
    obtain ⟨⟨s, hsm, hsid⟩, hc⟩ := hri e he
    refine ⟨⟨(if s.id == sid then { s with name := nm } else s),
      List.mem_map_of_mem _ hsm, ?_⟩, hc⟩
    by_cases hcase : (s.id == sid) = true
    · rw [if_pos hcase]
      exact hsid
    · rw [if_neg hcase]
      exact hsid
  · -- add_student preserves referential integrity
    intro e he
    rw [heA] at he
    obtain ⟨⟨s, hsm, hsid⟩, ⟨c, hcm, hcid⟩⟩ := hri e he
    rw [hsA, hcA]
    exact ⟨⟨s, List.mem_append_left _ hsm, hsid⟩, ⟨c, hcm, hcid⟩⟩
  · -- enroll_student preserves referential integrity
    intro e he
    rw [heE] at he
    rw [hsE, hcE]
    rcases List.mem_append.mp he with he | he
    · exact hri e he
    · rw [List.mem_singleton] at he
      subst he
      exact ⟨⟨se, hsem, hseid⟩, ⟨ce, hcem, hceid⟩⟩
  · -- seed_courses preserves referential integrity
    intro e he
    rw [heS] at he
    obtain ⟨⟨s, hsm, hsid⟩, ⟨c, hcm, hcid⟩⟩ := hri e he
    rw [hsS]
    exact ⟨⟨s, hsm, hsid⟩, ⟨c, hcS c hcm, hcid⟩⟩

/-- Witness for C10: a concrete database with two students, one course and
one enrollment; student 2 is deleted/renamed, a fresh student is added,
student 2 is enrolled in course 1, and the three fixed courses are
seeded. -/
theorem claim10_witness :
    (delete_student wInvDb 2).2 =
      (if wInvDb.students.any (fun s => s.id == 2) then 1 else 0) ∧
    (delete_student wInvDb 2).1.students.all (fun s => s.id != 2) = true ∧
    (delete_student wInvDb 2).1.enrollments.all (fun e => e.student_id != 2) = true ∧
    exEnrollmentsTable.foreignKeys.all (fun fk => fk.onDeleteCascade) = true ∧
    refIntegrity (delete_student wInvDb 2).1 ∧
    refIntegrity (rename_student wInvDb 2 "Ahuva").1 ∧
    refIntegrity wInvDbAfterAdd ∧ refIntegrity wInvDbAfterEnroll ∧ refIntegrity wInvDbAfterSeed :=
  claim10_delete_cascade wInvDb wInvDbAfterAdd wInvDbAfterEnroll wInvDbAfterSeed 2 1 3
    "Ahuva" "ahuva@example.com" (by decide) (by decide) rfl rfl rfl

end DbScripts
